import Mathlib

/-!
# Verification of `rpi/amherst_2005.py`

A shallow embedding of the L298N model-railroad switch controller.

The Python program drives two-position turnouts through an L298N H-bridge:
each switch has an enable pin, two direction pins (turn/straight) and a
push-button input armed as a GPIO edge interrupt.  Side-effectful GPIO
calls are embedded as an explicit event trace (`GpioEvent`), and the pin /
interrupt state of the hardware as a `World` on which traces execute.
-/

/-- `SwitchPosition` — `enum.IntEnum` with `TURN = 0`, `STRAIGHT = 1`. -/
inductive SwitchPosition where
  | TURN
  | STRAIGHT
  deriving DecidableEq

/-- Numeric value of the `IntEnum` member. -/
def SwitchPosition.toNat : SwitchPosition → Nat
  | .TURN => 0
  | .STRAIGHT => 1

/-- Truthiness of the `IntEnum` member, as Python sees it in a boolean
context (`0` falsy, `1` truthy). -/
def SwitchPosition.toBool : SwitchPosition → Bool
  | .TURN => false
  | .STRAIGHT => true

/-- Rebuild a `SwitchPosition` from its numeric value (1 ↦ STRAIGHT,
anything else ↦ TURN; the program only ever produces 0 or 1). -/
def SwitchPosition.ofValue (n : Nat) : SwitchPosition :=
  if n = 1 then .STRAIGHT else .TURN

/-- `self.state ^= 1`: xor the numeric value with 1. -/
def SwitchPosition.flip (p : SwitchPosition) : SwitchPosition :=
  SwitchPosition.ofValue (p.toNat ^^^ 1)

/-- Numeric edge constants of the `RPi.GPIO` library
(`RISING = 31`, `FALLING = 32`, `BOTH = 33`). -/
def Gpio.RISING : Nat := 31

/-- `RPi.GPIO.FALLING = 32`. -/
def Gpio.FALLING : Nat := 32

/-- `RPi.GPIO.BOTH = 33`. -/
def Gpio.BOTH : Nat := 33

/-- `EventEdge` — `enum.IntEnum` whose members carry the `RPi.GPIO` edge
constants (`FALLING = GPIO.FALLING`, `RISING = GPIO.RISING`,
`BOTH = GPIO.BOTH`). -/
inductive EventEdge where
  | FALLING
  | RISING
  | BOTH
  deriving DecidableEq

/-- Numeric value of the `EventEdge` member. -/
def EventEdge.toNat : EventEdge → Nat
  | .FALLING => Gpio.FALLING
  | .RISING => Gpio.RISING
  | .BOTH => Gpio.BOTH

/-- A validated `L298NSwitchSettings` record (the pydantic model after
validation): field order and defaults follow the Python class. -/
structure L298NSwitchSettings where
  initial_state : SwitchPosition
  debounce_ms : Int
  event_edge : EventEdge
  strobe_ms : Int
  name : String
  pin_enable : Int
  pin_turn : Int
  pin_straight : Int
  pin_button : Int
  deriving DecidableEq

/-- One observable side effect of the program: a call into `RPi.GPIO`,
a `time.sleep`, or a `logger.debug` emitted by the `state` setter. -/
inductive GpioEvent where
  | setupIn : Int → GpioEvent
  | setupOut : Int → GpioEvent
  | output : Int → Bool → GpioEvent
  | addEventDetect : Int → Nat → Int → GpioEvent
  | removeEventDetect : Int → GpioEvent
  | sleepMs : Int → GpioEvent
  | logState : String → Nat → GpioEvent
  deriving DecidableEq

/-- Hardware state observed through the GPIO layer: the logic level of
each (output) pin, and whether edge detection is armed on each pin. -/
structure World where
  level : Int → Bool
  armed : Int → Bool

/-- Effect of one GPIO event on the hardware state.  `output` drives a
pin level; `add_event_detect` / `remove_event_detect` arm and disarm the
interrupt on a pin; setup, sleep and logging do not change this state. -/
def World.exec (w : World) : GpioEvent → World
  | .output p v => { w with level := fun q => if q = p then v else w.level q }
  | .addEventDetect p _ _ => { w with armed := fun q => if q = p then true else w.armed q }
  | .removeEventDetect p => { w with armed := fun q => if q = p then false else w.armed q }
  | _ => w

/-- Execute a trace of GPIO events left to right. -/
def World.execList (w : World) (es : List GpioEvent) : World :=
  es.foldl World.exec w

/-- The `L298NSwitch` object: its configuration and its mutable
`state` attribute (`current_position`). -/
structure L298NSwitch where
  config : L298NSwitchSettings
  state : SwitchPosition
  deriving DecidableEq

/-- The `state` property setter: assigns `__state` and logs
`f'{name} -> {state}'`.  Embedded as the log event it emits. -/
def set_state (cfg : L298NSwitchSettings) (v : SwitchPosition) : List GpioEvent :=
  [.logState cfg.name v.toNat]

/-- `__set_direction_pins`: `GPIO.output(pin_turn, not self.state)` then
`GPIO.output(pin_straight, self.state)`. -/
def set_direction_pins (cfg : L298NSwitchSettings) (state : SwitchPosition) : List GpioEvent :=
  [.output cfg.pin_turn (!state.toBool), .output cfg.pin_straight state.toBool]

/-- `__enable_switch`: `GPIO.output(pin_enable, True)`. -/
def enable_switch (cfg : L298NSwitchSettings) : List GpioEvent :=
  [.output cfg.pin_enable true]

/-- `__disable_switch`: `GPIO.output(pin_enable, False)`. -/
def disable_switch (cfg : L298NSwitchSettings) : List GpioEvent :=
  [.output cfg.pin_enable false]

/-- `__strobe`: `time.sleep(strobe_ms / 1000)`. -/
def strobe (cfg : L298NSwitchSettings) : List GpioEvent :=
  [.sleepMs cfg.strobe_ms]

/-- `__init_pins`: configure the four pins, de-energize the driver, then
drive the direction pins for the current (initial) state. -/
def init_pins (cfg : L298NSwitchSettings) : List GpioEvent :=
  [.setupIn cfg.pin_button, .setupOut cfg.pin_enable,
   .setupOut cfg.pin_straight, .setupOut cfg.pin_turn]
  ++ disable_switch cfg
  ++ set_direction_pins cfg cfg.initial_state

/-- `__enable_button_interrupt`:
`GPIO.add_event_detect(pin_button, GPIO.RISING, callback=toggle,
bouncetime=debounce_ms)`.  Note the edge argument in the source is the
literal `GPIO.RISING`, not `config.event_edge`. -/
def enable_button_interrupt (cfg : L298NSwitchSettings) : List GpioEvent :=
  [.addEventDetect cfg.pin_button Gpio.RISING cfg.debounce_ms]

/-- `__disable_button_interrupt`: `GPIO.remove_event_detect(pin_button)`. -/
def disable_button_interrupt (cfg : L298NSwitchSettings) : List GpioEvent :=
  [.removeEventDetect cfg.pin_button]

/-- `L298NSwitch.__init__`: store the config, assign
`state = initial_state` (which logs), run `__init_pins`, then
`__enable_button_interrupt`.  Returns the constructed object and the
trace of GPIO events the construction emits. -/
def L298NSwitch.init (cfg : L298NSwitchSettings) : L298NSwitch × List GpioEvent :=
  (⟨cfg, cfg.initial_state⟩,
   set_state cfg cfg.initial_state
   ++ init_pins cfg
   ++ enable_button_interrupt cfg)

/-- `__toggle` (the button interrupt callback), statement by statement:
disarm the interrupt, `state ^= 1` (assignment logs via the setter),
energize the driver, drive the direction pins, strobe, de-energize, and
re-arm.  Returns the updated object and the emitted trace. -/
def L298NSwitch.toggle (sw : L298NSwitch) : L298NSwitch × List GpioEvent :=
  let p := sw.state.flip
  (⟨sw.config, p⟩,
   disable_button_interrupt sw.config
   ++ set_state sw.config p
   ++ enable_switch sw.config
   ++ set_direction_pins sw.config p
   ++ strobe sw.config
   ++ disable_switch sw.config
   ++ enable_button_interrupt sw.config)

/-- What the GPIO edge-detection layer does when an edge arrives on the
button pin: if detection is armed there, the registered callback
(`__toggle`) runs to completion; otherwise nothing happens. -/
def onEdge (sw : L298NSwitch) (w : World) : L298NSwitch × World :=
  if w.armed sw.config.pin_button then
    let (sw2, es) := sw.toggle
    (sw2, w.execList es)
  else (sw, w)

theorem flip_flip (p : SwitchPosition) : p.flip.flip = p := by
  cases p <;> rfl

theorem toggle_state (sw : L298NSwitch) : sw.toggle.1.state = sw.state.flip := rfl

/-- Error message of `validate_switch_position` for an unknown token `v`:
the f-string renders the `KeyError` as the quoted token and the list
comprehension as the Python list of member names. -/
def switch_position_error (v : String) : String :=
  "Error validating switch position " ++ "'" ++ v ++ "'" ++
  ". Valid switch positions are: " ++ "['TURN', 'STRAIGHT']"

/-- Error message of `validate_event_edge` for an unknown token `v`. -/
def event_edge_error (v : String) : String :=
  "Error validating event edge " ++ "'" ++ v ++ "'" ++
  ". Valid event edges are: " ++ "['FALLING', 'RISING', 'BOTH']"

/-- `L298NSwitchSettings.validate_switch_position`: name lookup
`SwitchPosition[value]`; a `KeyError` becomes a `ValueError` whose message
lists the valid member names. -/
def validate_switch_position (v : String) : Except String SwitchPosition :=
  if v = "TURN" then .ok .TURN
  else if v = "STRAIGHT" then .ok .STRAIGHT
  else .error (switch_position_error v)

/-- `L298NSwitchSettings.validate_event_edge`: name lookup
`EventEdge[value]`; a `KeyError` becomes a `ValueError` whose message
lists the valid member names. -/
def validate_event_edge (v : String) : Except String EventEdge :=
  if v = "FALLING" then .ok .FALLING
  else if v = "RISING" then .ok .RISING
  else if v = "BOTH" then .ok .BOTH
  else .error (event_edge_error v)

/-- One raw YAML record before validation: every field may be absent.
Enum fields arrive as string tokens, the rest as integers. -/
structure RawRecord where
  initial_state : Option String
  debounce_ms : Option Int
  event_edge : Option String
  strobe_ms : Option Int
  name : Option String
  pin_enable : Option Int
  pin_turn : Option Int
  pin_straight : Option Int
  pin_button : Option Int
  deriving DecidableEq

/-- `L298NSwitchSettings.model_validate`: the pydantic model with its
defaults (`initial_state = TURN`, `debounce_ms = 200`,
`event_edge = RISING`, `strobe_ms = 500`), the two `mode='before'` field
validators run on provided enum tokens (defaults are not validated), and
`name` plus the four pins required. -/
def model_validate (r : RawRecord) : Except String L298NSwitchSettings := do
  let ist ← match r.initial_state with
    | none => Except.ok SwitchPosition.TURN
    | some v => validate_switch_position v
  let ee ← match r.event_edge with
    | none => Except.ok EventEdge.RISING
    | some v => validate_event_edge v
  let nm ← match r.name with
    | some s => Except.ok s
    | none => Except.error "Field required: name"
  let pe ← match r.pin_enable with
    | some i => Except.ok i
    | none => Except.error "Field required: pin_enable"
  let pt ← match r.pin_turn with
    | some i => Except.ok i
    | none => Except.error "Field required: pin_turn"
  let ps ← match r.pin_straight with
    | some i => Except.ok i
    | none => Except.error "Field required: pin_straight"
  let pb ← match r.pin_button with
    | some i => Except.ok i
    | none => Except.error "Field required: pin_button"
  Except.ok
    { initial_state := ist, debounce_ms := r.debounce_ms.getD 200,
      event_edge := ee, strobe_ms := r.strobe_ms.getD 500, name := nm,
      pin_enable := pe, pin_turn := pt, pin_straight := ps, pin_button := pb }

/-- The `__main__` registration loop: `switches = list()`, then for each
record validate it (`model_validate`, raising on error) and construct an
`L298NSwitch`, appending it.  No duplicate-name or duplicate-pin check
appears anywhere in the loop. -/
def registerSwitches : List RawRecord → List L298NSwitch → Except String (List L298NSwitch)
  | [], switches => .ok switches
  | r :: rest, switches =>
    match model_validate r with
    | .error e => .error e
    | .ok cfg => registerSwitches rest (switches ++ [(L298NSwitch.init cfg).1])

/-- Whether an `Except` computation succeeded (the Python code did not
raise). -/
def okB : Except String α → Bool
  | .ok _ => true
  | .error _ => false

/-- Modelled from the spec (§4.2): the toggle sequence in the step order
the spec prescribes — disarm, compute the new position, direction pins,
enable, strobe, disable, position update / log, re-arm.  Written for
refinement comparison with `L298NSwitch.toggle` (the order the code
actually executes). -/
def specToggle (sw : L298NSwitch) : L298NSwitch × List GpioEvent :=
  let p := sw.state.flip
  (⟨sw.config, p⟩,
   disable_button_interrupt sw.config
   ++ set_direction_pins sw.config p
   ++ enable_switch sw.config
   ++ strobe sw.config
   ++ disable_switch sw.config
   ++ set_state sw.config p
   ++ enable_button_interrupt sw.config)

/-- Execute a trace in which the `failIdx`-th `GPIO.output` call (counted
from `k`) raises.  Faithful to the Python control flow of `__toggle`,
which contains no `try`/`except`: the exception aborts the rest of the
trace.  Returns the hardware state reached and whether an exception
propagated. -/
def World.execFallible (w : World) (k : Nat) (failIdx : Option Nat) :
    List GpioEvent → World × Bool
  | [] => (w, false)
  | .output p v :: rest =>
      if failIdx = some k then (w, true)
      else World.execFallible (w.exec (.output p v)) (k + 1) failIdx rest
  | e :: rest => World.execFallible (w.exec e) k failIdx rest

/-- Run `__toggle` on hardware state `w` with the `failIdx`-th pin write
(0-based, among the four `GPIO.output` calls of the toggle) raising. -/
def toggleFallible (sw : L298NSwitch) (failIdx : Option Nat) (w : World) :
    World × Bool :=
  World.execFallible w 0 failIdx sw.toggle.2

/-- The spec's §8 scenario config: `{name: sw1, initial_state: TURN,
debounce_ms: 200, strobe_ms: 500, event_edge: RISING, pin_enable: 17,
pin_turn: 27, pin_straight: 22, pin_button: 23}`. -/
def cfg1 : L298NSwitchSettings :=
  { initial_state := .TURN, debounce_ms := 200, event_edge := .RISING,
    strobe_ms := 500, name := "sw1", pin_enable := 17, pin_turn := 27,
    pin_straight := 22, pin_button := 23 }

/-- A config whose `event_edge` is `FALLING`. -/
def cfgFalling : L298NSwitchSettings :=
  { initial_state := .TURN, debounce_ms := 200, event_edge := .FALLING,
    strobe_ms := 500, name := "swF", pin_enable := 5, pin_turn := 6,
    pin_straight := 13, pin_button := 19 }

/-- Hardware state of `cfg1` sitting in `Idle(p)`: all levels low, edge
detection armed on the button pin 23. -/
def w1 : World :=
  { level := fun _ => false, armed := fun q => q == 23 }

theorem cfg1_toggle_trace :
    (L298NSwitch.toggle ⟨cfg1, .TURN⟩).2 =
      [.removeEventDetect 23, .logState "sw1" 1, .output 17 true,
       .output 27 false, .output 22 true, .sleepMs 500, .output 17 false,
       .addEventDetect 23 Gpio.RISING 200] := by decide

/-- Claim C1 (counterexample): the toggle transition does NOT execute in
the §4.2 step order.  At the spec's own scenario config in state
`Idle(TURN)`, the trace `__toggle` emits differs from the spec-ordered
trace: the code asserts the enable line before the direction pins and
updates/logs `current_position` before the driver is ever energized. -/
theorem C1_counterexample :
    (L298NSwitch.toggle ⟨cfg1, .TURN⟩).2 ≠ (specToggle ⟨cfg1, .TURN⟩).2 := by
  decide

/-- Claim C1 (amended): for every accepted button edge in `Idle(p)` the
toggle executes: (1) disarm the button interrupt, (2) compute
`new_position = flip(p)` and immediately update `current_position` and log,
(3) assert the enable line true, (4) assert the direction pins for
`new_position`, (5) hold for `strobe_ms`, (6) assert the enable line
false, (7) re-arm the button interrupt — i.e. the enable line is asserted
before the direction pins, and `current_position` is updated before the
driver is energized, not after it is disabled. -/
theorem C1_toggle_order (cfg : L298NSwitchSettings) (p : SwitchPosition) :
    (L298NSwitch.toggle ⟨cfg, p⟩).2 =
      [.removeEventDetect cfg.pin_button,
       .logState cfg.name p.flip.toNat,
       .output cfg.pin_enable true,
       .output cfg.pin_turn (!p.flip.toBool),
       .output cfg.pin_straight p.flip.toBool,
       .sleepMs cfg.strobe_ms,
       .output cfg.pin_enable false,
       .addEventDetect cfg.pin_button Gpio.RISING cfg.debounce_ms]
    ∧ (L298NSwitch.toggle ⟨cfg, p⟩).1.state = p.flip :=
  ⟨rfl, rfl⟩

/-- Claim C2: the button interrupt is armed with the literal `GPIO.RISING`
for every config — the `event_edge` field is validated but never used, so
a config with `event_edge = FALLING` still reacts only to rising edges.
The arm event carrying the configured falling edge never occurs, neither
at construction nor on re-arm after a toggle. -/
theorem C2_event_edge_ignored :
    (∀ cfg : L298NSwitchSettings,
      enable_button_interrupt cfg =
        [.addEventDetect cfg.pin_button Gpio.RISING cfg.debounce_ms])
    ∧ cfgFalling.event_edge = EventEdge.FALLING
    ∧ EventEdge.toNat EventEdge.FALLING ≠ Gpio.RISING
    ∧ GpioEvent.addEventDetect cfgFalling.pin_button Gpio.RISING
        cfgFalling.debounce_ms ∈ (L298NSwitch.init cfgFalling).2
    ∧ GpioEvent.addEventDetect cfgFalling.pin_button
        (EventEdge.toNat cfgFalling.event_edge) cfgFalling.debounce_ms ∉
        (L298NSwitch.init cfgFalling).2
    ∧ GpioEvent.addEventDetect cfgFalling.pin_button
        (EventEdge.toNat cfgFalling.event_edge) cfgFalling.debounce_ms ∉
        (L298NSwitch.toggle ⟨cfgFalling, .TURN⟩).2 :=
  ⟨fun _ => rfl, rfl, by decide, by decide, by decide, by decide⟩

theorem flip_iterate_parity (p : SwitchPosition) (n : Nat) :
    SwitchPosition.flip^[n] p = if n % 2 = 0 then p else p.flip := by
  induction n generalizing p with
  | zero => simp
  | succ n ih =>
    rw [Function.iterate_succ_apply, ih]
    rcases Nat.even_or_odd n with h | h
    · have h2 : n % 2 = 0 := Nat.even_iff.mp h
      have h3 : (n + 1) % 2 = 1 := by omega
      simp [h2, h3]
    · have h2 : n % 2 = 1 := Nat.odd_iff.mp h
      have h3 : (n + 1) % 2 = 0 := by omega
      simp [h2, h3, flip_flip]

theorem toggle_iterate (cfg : L298NSwitchSettings) (p : SwitchPosition) (n : Nat) :
    (fun sw => (L298NSwitch.toggle sw).1)^[n] ⟨cfg, p⟩ =
      ⟨cfg, SwitchPosition.flip^[n] p⟩ := by
  induction n generalizing p with
  | zero => rfl
  | succ n ih =>
    rw [Function.iterate_succ_apply, Function.iterate_succ_apply]
    exact ih p.flip

/-- Claim C4: starting from position `p`, a sequence of `n` accepted
button edges (each running `__toggle`) leaves `current_position` equal to
`p` when `n` is even and `flip(p)` when `n` is odd; in particular two
toggles restore the original position. -/
theorem C4_toggle_parity (cfg : L298NSwitchSettings) (p : SwitchPosition) (n : Nat) :
    ((fun sw => (L298NSwitch.toggle sw).1)^[n] ⟨cfg, p⟩).state =
      (if n % 2 = 0 then p else p.flip)
    ∧ (L298NSwitch.toggle (L298NSwitch.toggle ⟨cfg, p⟩).1).1.state = p := by
  constructor
  · rw [toggle_iterate, flip_iterate_parity]
  · exact flip_flip p

/-- Claim C5: for every valid config (the four pins distinct), immediately
after `L298NSwitch.__init__` the `state` attribute equals
`config.initial_state` and the enable line reads de-asserted; the
construction trace contains no driver-energizing write at all. -/
theorem C5_construction (cfg : L298NSwitchSettings) (w : World)
    (het : cfg.pin_enable ≠ cfg.pin_turn)
    (hes : cfg.pin_enable ≠ cfg.pin_straight) :
    (L298NSwitch.init cfg).1.state = cfg.initial_state
    ∧ (w.execList (L298NSwitch.init cfg).2).level cfg.pin_enable = false
    ∧ GpioEvent.output cfg.pin_enable true ∉ (L298NSwitch.init cfg).2 := by
  refine ⟨rfl, ?_, ?_⟩
  · simp [L298NSwitch.init, init_pins, set_state, disable_switch,
      set_direction_pins, enable_button_interrupt, World.execList,
      World.exec, het, hes]
  · simp [L298NSwitch.init, init_pins, set_state, disable_switch,
      set_direction_pins, enable_button_interrupt, het, hes]

/-- Witness for C5 at the spec's scenario config. -/
theorem C5_construction_witness :
    (L298NSwitch.init cfg1).1.state = cfg1.initial_state
    ∧ (w1.execList (L298NSwitch.init cfg1).2).level cfg1.pin_enable = false
    ∧ GpioEvent.output cfg1.pin_enable true ∉ (L298NSwitch.init cfg1).2 :=
  C5_construction cfg1 w1 (by decide) (by decide)

/-- Claim C6: throughout the strobe window of every toggle the button
interrupt is disarmed — after executing the toggle trace up to and
including the strobe, edge detection on the button pin is off and an
injected edge is a no-op (`onEdge` changes nothing) — and once the toggle
trace completes, the enable line reads de-asserted, the interrupt is
re-armed, and a subsequent edge toggles the position again. -/
theorem C6_strobe_window (cfg : L298NSwitchSettings) (p q : SwitchPosition) (w : World) :
    (w.execList ((L298NSwitch.toggle ⟨cfg, p⟩).2.take 6)).armed cfg.pin_button = false
    ∧ onEdge ⟨cfg, q⟩ (w.execList ((L298NSwitch.toggle ⟨cfg, p⟩).2.take 6)) =
        (⟨cfg, q⟩, w.execList ((L298NSwitch.toggle ⟨cfg, p⟩).2.take 6))
    ∧ (w.execList (L298NSwitch.toggle ⟨cfg, p⟩).2).armed cfg.pin_button = true
    ∧ (w.execList (L298NSwitch.toggle ⟨cfg, p⟩).2).level cfg.pin_enable = false
    ∧ (onEdge (L298NSwitch.toggle ⟨cfg, p⟩).1
        (w.execList (L298NSwitch.toggle ⟨cfg, p⟩).2)).1.state = p.flip.flip := by
  have hmid : (w.execList ((L298NSwitch.toggle ⟨cfg, p⟩).2.take 6)).armed
      cfg.pin_button = false := by
    simp [L298NSwitch.toggle, disable_button_interrupt, set_state,
      enable_switch, set_direction_pins, strobe, disable_switch,
      enable_button_interrupt, World.execList, World.exec]
  have hend : (w.execList (L298NSwitch.toggle ⟨cfg, p⟩).2).armed
      cfg.pin_button = true := by
    simp [L298NSwitch.toggle, disable_button_interrupt, set_state,
      enable_switch, set_direction_pins, strobe, disable_switch,
      enable_button_interrupt, World.execList, World.exec]
  refine ⟨hmid, ?_, hend, ?_, ?_⟩
  · simp [onEdge, hmid]
  · simp [L298NSwitch.toggle, disable_button_interrupt, set_state,
      enable_switch, set_direction_pins, strobe, disable_switch,
      enable_button_interrupt, World.execList, World.exec]
  · have hc : (L298NSwitch.toggle ⟨cfg, p⟩).1 = ⟨cfg, p.flip⟩ := rfl
    rw [hc]
    simp only [onEdge, hend, if_true]
    exact toggle_state ⟨cfg, p.flip⟩

/-- Claim C7: `__set_direction_pins` always writes
`turn pin = NOT position` then `straight pin = position`; after
construction the direction pins hold those levels for `initial_state`
while the enable line reads de-asserted (direction is driven even though
the driver is disabled: the enable-low write precedes the direction
writes in the construction trace); and after every toggle the direction
pins hold those levels for the new position `flip(p)`. -/
theorem C7_direction_pins (cfg : L298NSwitchSettings) (w : World) (p : SwitchPosition)
    (hts : cfg.pin_turn ≠ cfg.pin_straight)
    (het : cfg.pin_enable ≠ cfg.pin_turn)
    (hes : cfg.pin_enable ≠ cfg.pin_straight) :
    set_direction_pins cfg p =
      [.output cfg.pin_turn (!p.toBool), .output cfg.pin_straight p.toBool]
    ∧ (w.execList (L298NSwitch.init cfg).2).level cfg.pin_turn =
        !cfg.initial_state.toBool
    ∧ (w.execList (L298NSwitch.init cfg).2).level cfg.pin_straight =
        cfg.initial_state.toBool
    ∧ (L298NSwitch.init cfg).2 =
        ([.logState cfg.name cfg.initial_state.toNat, .setupIn cfg.pin_button,
          .setupOut cfg.pin_enable, .setupOut cfg.pin_straight,
          .setupOut cfg.pin_turn, .output cfg.pin_enable false]
         ++ set_direction_pins cfg cfg.initial_state
         ++ enable_button_interrupt cfg)
    ∧ (w.execList ((L298NSwitch.init cfg).2.take 6)).level cfg.pin_enable = false
    ∧ (w.execList (L298NSwitch.toggle ⟨cfg, p⟩).2).level cfg.pin_turn =
        !p.flip.toBool
    ∧ (w.execList (L298NSwitch.toggle ⟨cfg, p⟩).2).level cfg.pin_straight =
        p.flip.toBool := by
  have hts2 := Ne.symm hts
  have het2 := Ne.symm het
  have hes2 := Ne.symm hes
  refine ⟨rfl, ?_, ?_, rfl, ?_, ?_, ?_⟩ <;>
    simp [L298NSwitch.init, L298NSwitch.toggle, init_pins, set_state,
      disable_switch, enable_switch, set_direction_pins, strobe,
      disable_button_interrupt, enable_button_interrupt, World.execList,
      World.exec, hts, hes, het, hts2, het2, hes2]

/-- Witness for C7 at the spec's scenario config, starting from
`STRAIGHT`. -/
theorem C7_direction_pins_witness :
    set_direction_pins cfg1 SwitchPosition.STRAIGHT =
      [.output cfg1.pin_turn (!SwitchPosition.STRAIGHT.toBool),
       .output cfg1.pin_straight SwitchPosition.STRAIGHT.toBool]
    ∧ (w1.execList (L298NSwitch.init cfg1).2).level cfg1.pin_turn =
        !cfg1.initial_state.toBool
    ∧ (w1.execList (L298NSwitch.init cfg1).2).level cfg1.pin_straight =
        cfg1.initial_state.toBool
    ∧ (L298NSwitch.init cfg1).2 =
        ([.logState cfg1.name cfg1.initial_state.toNat, .setupIn cfg1.pin_button,
          .setupOut cfg1.pin_enable, .setupOut cfg1.pin_straight,
          .setupOut cfg1.pin_turn, .output cfg1.pin_enable false]
         ++ set_direction_pins cfg1 cfg1.initial_state
         ++ enable_button_interrupt cfg1)
    ∧ (w1.execList ((L298NSwitch.init cfg1).2.take 6)).level cfg1.pin_enable = false
    ∧ (w1.execList (L298NSwitch.toggle ⟨cfg1, .STRAIGHT⟩).2).level cfg1.pin_turn =
        !SwitchPosition.STRAIGHT.flip.toBool
    ∧ (w1.execList (L298NSwitch.toggle ⟨cfg1, .STRAIGHT⟩).2).level cfg1.pin_straight =
        SwitchPosition.STRAIGHT.flip.toBool :=
  C7_direction_pins cfg1 w1 .STRAIGHT (by decide) (by decide) (by decide)

/-- Claim C3 (counterexample): at the spec's scenario config in
`Idle(TURN)`, if the second pin write of the toggle (the turn-direction
write, i.e. a failure during steps 3–6) raises, the exception propagates
out of the handler, the enable line (pin 17) is left asserted and the
button interrupt (pin 23) is left disarmed — the controller neither
de-asserts the enable line nor re-arms the interrupt. -/
theorem C3_counterexample :
    (toggleFallible ⟨cfg1, .TURN⟩ (some 1) w1).2 = true
    ∧ (toggleFallible ⟨cfg1, .TURN⟩ (some 1) w1).1.level 17 = true
    ∧ (toggleFallible ⟨cfg1, .TURN⟩ (some 1) w1).1.armed 23 = false := by
  decide

/-- Claim C3 (amended): `__toggle` contains no exception handling — a pin
write failure during the toggle propagates out of the handler, nothing
after the failing write executes, and a failure in any write after the
enable line has been asserted (writes 1 to 3 of the four `GPIO.output`
calls) leaves the enable line asserted and the button interrupt
disarmed. -/
theorem C3_fault_propagates (cfg : L298NSwitchSettings) (w : World)
    (p : SwitchPosition) (k : Nat) (hk1 : 1 ≤ k) (hk3 : k ≤ 3)
    (het : cfg.pin_enable ≠ cfg.pin_turn)
    (hes : cfg.pin_enable ≠ cfg.pin_straight) :
    (toggleFallible ⟨cfg, p⟩ (some k) w).2 = true
    ∧ (toggleFallible ⟨cfg, p⟩ (some k) w).1.level cfg.pin_enable = true
    ∧ (toggleFallible ⟨cfg, p⟩ (some k) w).1.armed cfg.pin_button = false := by
  interval_cases k <;>
    simp [toggleFallible, L298NSwitch.toggle, disable_button_interrupt,
      set_state, enable_switch, set_direction_pins, strobe, disable_switch,
      enable_button_interrupt, World.execFallible, World.exec, het, hes]

/-- Witness for C3's amended theorem: the straight-direction write
(write 2) failing at the scenario config. -/
theorem C3_fault_propagates_witness :
    (toggleFallible ⟨cfg1, .TURN⟩ (some 2) w1).2 = true
    ∧ (toggleFallible ⟨cfg1, .TURN⟩ (some 2) w1).1.level cfg1.pin_enable = true
    ∧ (toggleFallible ⟨cfg1, .TURN⟩ (some 2) w1).1.armed cfg1.pin_button = false :=
  C3_fault_propagates cfg1 w1 .TURN 2 (by decide) (by decide) (by decide) (by decide)

/-- Two raw records that collide: same `name` ("north") and same
`pin_enable` (17), with distinct button pins. -/
def rawDup1 : RawRecord :=
  ⟨some "TURN", some 200, some "RISING", some 500, some "north",
   some 17, some 27, some 22, some 23⟩

/-- Second colliding record: shares `name` and `pin_enable` with
`rawDup1`. -/
def rawDup2 : RawRecord :=
  ⟨some "TURN", some 200, some "RISING", some 500, some "north",
   some 17, some 6, some 12, some 16⟩

theorem registerSwitches_go (records : List RawRecord) (acc : List L298NSwitch) :
    okB (registerSwitches records acc) =
      records.all (fun r => okB (model_validate r))
    ∧ ∀ l, registerSwitches records acc = Except.ok l →
        l.length = acc.length + records.length := by
  induction records generalizing acc with
  | nil => simp [registerSwitches, okB]
  | cons r rs ih =>
    cases hm : model_validate r with
    | error e => simp [registerSwitches, hm, okB]
    | ok cfg =>
      have h2 := ih (acc ++ [(L298NSwitch.init cfg).1])
      constructor
      · rw [List.all_cons, hm]
        have : okB (Except.ok cfg : Except String L298NSwitchSettings) = true := rfl
        rw [this, Bool.true_and]
        rw [← h2.1]
        simp [registerSwitches, hm]
      · intro l hl
        have h3 : registerSwitches rs (acc ++ [(L298NSwitch.init cfg).1]) =
            Except.ok l := by
          rw [← hl]
          simp [registerSwitches, hm]
        have := h2.2 l h3
        simp at this
        simp [this]
        omega

/-- Claim C8 (counterexample): the registration loop performs no
duplicate checking.  `rawDup1` and `rawDup2` share both their `name` and
their `pin_enable`, yet registering them both succeeds and constructs a
controller for each — no `DuplicateNameError` or `DuplicatePinError` is
raised, and a controller IS constructed for the colliding config. -/
theorem C8_counterexample :
    rawDup1.name = rawDup2.name
    ∧ rawDup1.pin_enable = rawDup2.pin_enable
    ∧ ∃ l, registerSwitches [rawDup1, rawDup2] [] = Except.ok l
        ∧ l.length = 2 :=
  ⟨rfl, rfl, _, rfl, rfl⟩

/-- Claim C8 (amended): the `__main__` registration loop checks nothing
about duplicates — it succeeds exactly when every record individually
passes `model_validate`, regardless of name or pin collisions, and on
success constructs one controller per config record. -/
theorem C8_no_duplicate_checks (records : List RawRecord) :
    okB (registerSwitches records []) =
      records.all (fun r => okB (model_validate r))
    ∧ ∀ l, registerSwitches records [] = Except.ok l →
        l.length = records.length := by
  have h := registerSwitches_go records []
  exact ⟨h.1, fun l hl => by simpa using h.2 l hl⟩

/-- Witness for C8's amended theorem at the colliding pair. -/
theorem C8_no_duplicate_checks_witness :
    okB (registerSwitches [rawDup1, rawDup2] []) = true
    ∧ ∃ l, registerSwitches [rawDup1, rawDup2] [] = Except.ok l
        ∧ l.length = 2 := by
  have h := C8_no_duplicate_checks [rawDup1, rawDup2]
  refine ⟨by rw [h.1]; decide, _, rfl, h.2 _ rfl⟩

theorem error_bind {α β : Type} (e : String) (f : α → Except String β) :
    (Except.error e : Except String α) >>= f = Except.error e := rfl

theorem ok_bind {α β : Type} (a : α) (f : α → Except String β) :
    (Except.ok a : Except String α) >>= f = f a := rfl

/-- A record whose `initial_state` token is not a member name. -/
def rawBadPos : RawRecord :=
  ⟨some "DIAGONAL", none, none, none, some "bad1", some 1, some 2, some 3, some 4⟩

/-- A record whose `event_edge` token is not a member name. -/
def rawBadEdge : RawRecord :=
  ⟨none, none, some "SIDEWAYS", none, some "bad2", some 1, some 2, some 3, some 4⟩

/-- Claim C9: a record whose `initial_state` token is not a valid
`SwitchPosition` name makes validation fail with the `ValueError` whose
message ends with the list of accepted values, and the registration loop
then fails before constructing that switch; likewise a record whose
`event_edge` token is not a valid `EventEdge` name (its `initial_state`
being absent or valid) fails with the message listing the accepted edge
values. -/
theorem C9_invalid_enum_token (r : RawRecord) (v : String) :
    (r.initial_state = some v → v ≠ "TURN" → v ≠ "STRAIGHT" →
      model_validate r = Except.error (switch_position_error v)
      ∧ (∃ a, switch_position_error v = a ++ "['TURN', 'STRAIGHT']")
      ∧ registerSwitches [r] [] = Except.error (switch_position_error v))
    ∧ ((r.initial_state = none ∨ r.initial_state = some "TURN"
          ∨ r.initial_state = some "STRAIGHT") →
        r.event_edge = some v → v ≠ "FALLING" → v ≠ "RISING" → v ≠ "BOTH" →
      model_validate r = Except.error (event_edge_error v)
      ∧ (∃ a, event_edge_error v = a ++ "['FALLING', 'RISING', 'BOTH']")
      ∧ registerSwitches [r] [] = Except.error (event_edge_error v)) := by
  constructor
  · intro hi h1 h2
    have hv : validate_switch_position v =
        Except.error (switch_position_error v) := by
      simp [validate_switch_position, h1, h2]
    have hm : model_validate r = Except.error (switch_position_error v) := by
      simp [model_validate, hi, hv, error_bind]
    exact ⟨hm, ⟨_, rfl⟩, by simp [registerSwitches, hm]⟩
  · intro hi he h1 h2 h3
    have hv : validate_event_edge v = Except.error (event_edge_error v) := by
      simp [validate_event_edge, h1, h2, h3]
    have hm : model_validate r = Except.error (event_edge_error v) := by
      rcases hi with hi | hi | hi <;>
        simp [model_validate, hi, he, hv, validate_switch_position,
          error_bind, ok_bind]
    exact ⟨hm, ⟨_, rfl⟩, by simp [registerSwitches, hm]⟩

/-- Witness for C9 at the two invalid records. -/
theorem C9_invalid_enum_token_witness :
    (model_validate rawBadPos = Except.error (switch_position_error "DIAGONAL")
      ∧ (∃ a, switch_position_error "DIAGONAL" = a ++ "['TURN', 'STRAIGHT']")
      ∧ registerSwitches [rawBadPos] [] =
          Except.error (switch_position_error "DIAGONAL"))
    ∧ (model_validate rawBadEdge = Except.error (event_edge_error "SIDEWAYS")
      ∧ (∃ a, event_edge_error "SIDEWAYS" = a ++ "['FALLING', 'RISING', 'BOTH']")
      ∧ registerSwitches [rawBadEdge] [] =
          Except.error (event_edge_error "SIDEWAYS")) :=
  ⟨(C9_invalid_enum_token rawBadPos "DIAGONAL").1 rfl (by decide) (by decide),
   (C9_invalid_enum_token rawBadEdge "SIDEWAYS").2 (Or.inl rfl) rfl
     (by decide) (by decide) (by decide)⟩

/-- A record supplying only the required fields: `name` and the four
pins. -/
def rawMinimal (nm : String) (pe pt ps pb : Int) : RawRecord :=
  ⟨none, none, none, none, some nm, some pe, some pt, some ps, some pb⟩

/-- Claim C10: a record supplying only `name` and the four pins validates
successfully, the omitted fields defaulting to `TURN`, `200`, `RISING`
and `500`; supplying some optional fields keeps the defaults for the
rest; and omitting `name` or any pin makes validation fail. -/
theorem C10_defaults (nm : String) (pe pt ps pb : Int) :
    model_validate (rawMinimal nm pe pt ps pb) =
      Except.ok
        { initial_state := .TURN, debounce_ms := 200, event_edge := .RISING,
          strobe_ms := 500, name := nm, pin_enable := pe, pin_turn := pt,
          pin_straight := ps, pin_button := pb }
    ∧ model_validate
        { rawMinimal nm pe pt ps pb with
            initial_state := some "STRAIGHT", strobe_ms := some 750 } =
      Except.ok
        { initial_state := .STRAIGHT, debounce_ms := 200, event_edge := .RISING,
          strobe_ms := 750, name := nm, pin_enable := pe, pin_turn := pt,
          pin_straight := ps, pin_button := pb }
    ∧ okB (model_validate { rawMinimal nm pe pt ps pb with name := none }) = false
    ∧ okB (model_validate { rawMinimal nm pe pt ps pb with pin_enable := none }) = false
    ∧ okB (model_validate { rawMinimal nm pe pt ps pb with pin_turn := none }) = false
    ∧ okB (model_validate { rawMinimal nm pe pt ps pb with pin_straight := none }) = false
    ∧ okB (model_validate { rawMinimal nm pe pt ps pb with pin_button := none }) = false :=
  ⟨rfl, rfl, rfl, rfl, rfl, rfl, rfl⟩
